import Mathlib

/-!
Verification of the PlasticGPT chat widget (a React client).

Shallow embedding of the four source files:
- ChatWindow component (message list, input, loading flag, handleSubmit);
- the useChat hook (message list, a mutation with onSuccess/onError, send);
- the type declarations ChatMessage, ChatRequest, ChatResponse;
- App (renders ChatWindow).

Nondeterministic browser inputs (crypto.randomUUID(), nanoid(), new
Date().toISOString()) are modelled as explicit FreshMeta arguments.  The
transport function sendMessage lives in src/lib/api.ts, which is not part of
the sources here; the handlers depend only on its settled outcome, modelled
as TransportOutcome (resolve with a reply text, or reject).
-/

set_option autoImplicit false

namespace PlasticGPT

/-- The sender of a chat message, per the ChatMessage declaration in
src/client/src/types/chat.ts: the string union of user and bot. -/
inductive Sender where
  | user
  | bot
deriving DecidableEq, Repr

/-- The ChatMessage record of src/client/src/types/chat.ts. -/
structure ChatMessage where
  id : String
  sender : Sender
  text : String
  timestamp : String
deriving DecidableEq, Repr

/-- The declared outbound payload type ChatRequest of
src/client/src/types/chat.ts: a single field named message. -/
structure ChatRequest where
  message : String
deriving DecidableEq, Repr

/-- The declared response type ChatResponse of src/client/src/types/chat.ts:
a single field named reply. -/
structure ChatResponse where
  reply : String
deriving DecidableEq, Repr

/-- A runtime request object as actually constructed at a call site of
sendMessage: a JavaScript object that may carry a field named message and may
carry a field named question; an absent field is none. -/
structure WireRequest where
  message : Option String := none
  question : Option String := none
deriving DecidableEq, Repr

/-- A runtime response object as the call site sees it: it may carry a field
named reply and may carry a field named response; an absent field is none. -/
structure WireResponse where
  reply : Option String := none
  response : Option String := none
deriving DecidableEq, Repr

/-- The two call sites of the transport function sendMessage: the ChatWindow
component's handleSubmit, and the useChat hook's mutation. -/
inductive CallSite where
  | chatWindow
  | useChat
deriving DecidableEq, Repr

/-- The request object written at each call site, from the source text:
ChatWindow calls sendMessage with an object whose only field is question
holding the raw input; useChat calls mutation.mutate with an object whose
only field is message holding the text. -/
def issuedRequest : CallSite → String → WireRequest
  | .chatWindow, input => { question := some input }
  | .useChat, text => { message := some text }

/-- The response field consumed at each call site, from the source text:
ChatWindow reads res.response; useChat reads data.reply. -/
def readResponseField : CallSite → WireResponse → Option String
  | .chatWindow, r => r.response
  | .useChat, r => r.reply

/-- Fresh metadata attached to a newly created ChatMessage: the id produced
by crypto.randomUUID() or nanoid(), and the timestamp produced by new
Date().toISOString(), passed in explicitly. -/
structure FreshMeta where
  id : String
  timestamp : String
deriving DecidableEq, Repr

/-- Building a ChatMessage record the way every creation site in the sources
does: fresh id and timestamp, a sender tag and a text. -/
def mkMessage (m : FreshMeta) (sender : Sender) (text : String) : ChatMessage :=
  { id := m.id, sender := sender, text := text, timestamp := m.timestamp }

/-- The settled outcome of one transport call: the promise returned by
sendMessage resolves with the reply text the call site consumes, or rejects. -/
inductive TransportOutcome where
  | success (reply : String)
  | failure
deriving DecidableEq, Repr

/-- A rejection surfaced as an exception: the awaited promise either yields a
reply or throws. -/
def transportResult : TransportOutcome → Except Unit String
  | .success reply => .ok reply
  | .failure => .error ()

/-- JavaScript String.prototype.trim as used by the source (input.trim()):
drop whitespace characters from both ends of the string. -/
def jsTrim (s : String) : String :=
  ⟨((s.data.dropWhile Char.isWhitespace).reverse.dropWhile Char.isWhitespace).reverse⟩

/-! ### ChatWindow component (src/unnamed/part_000) -/

/-- The state owned by the ChatWindow component: the messages list, the input
draft and the isLoading flag, each a useState hook. -/
structure ChatWindowState where
  messages : List ChatMessage
  input : String
  isLoading : Bool
deriving DecidableEq, Repr

/-- The greeting text of the initial bot message in ChatWindow. -/
def chatWindowGreeting : String := "Hi there! How can I help you?"

/-- The initial messages list of ChatWindow: a single bot message holding the
greeting, created with a fresh id and timestamp. -/
def chatWindowInitialMessages (m : FreshMeta) : List ChatMessage :=
  [mkMessage m .bot chatWindowGreeting]

/-- The initial ChatWindow state: the greeting list, an empty input draft,
isLoading false. -/
def initialChatWindowState (m : FreshMeta) : ChatWindowState :=
  { messages := chatWindowInitialMessages m, input := "", isLoading := false }

/-- The fixed fallback text appended by ChatWindow's catch block. -/
def chatWindowFallbackText : String := "Something went wrong. Please try again."

/-- The synchronous phase of handleSubmit, up to the await: if the trimmed
input is empty, return with no state change and no call; otherwise append the
user message (with the raw, untrimmed input as its text), clear the input,
set isLoading, and issue the one outbound call carrying the question field.
The second component is the issued request, none when no call is issued. -/
def handleSubmitSync (um : FreshMeta) (s : ChatWindowState) :
    ChatWindowState × Option WireRequest :=
  if jsTrim s.input = "" then (s, none)
  else
    ({ messages := s.messages ++ [mkMessage um .user s.input],
       input := "",
       isLoading := true },
     some (issuedRequest .chatWindow s.input))

/-- The text of the bot message handleSubmit appends once the call settles:
the consumed reply text on success, the fixed fallback on rejection. -/
def chatWindowBotText : TransportOutcome → String
  | .success reply => reply
  | .failure => chatWindowFallbackText

/-- The resumption of handleSubmit after the awaited call settles: the try
branch appends a bot message with the reply text, the catch branch appends a
bot message with the fallback text, and the finally block clears isLoading in
both cases. -/
def handleSubmitResolve (bm : FreshMeta) (outcome : TransportOutcome)
    (s : ChatWindowState) : ChatWindowState :=
  { s with
    messages := s.messages ++ [mkMessage bm .bot (chatWindowBotText outcome)],
    isLoading := false }

/-- One complete run of handleSubmit: the synchronous phase, then, when a
call was issued, the resumption with the call's outcome. -/
def handleSubmit (um bm : FreshMeta) (outcome : TransportOutcome)
    (s : ChatWindowState) : ChatWindowState :=
  match handleSubmitSync um s with
  | (s1, none) => s1
  | (s1, some _) => handleSubmitResolve bm outcome s1

/-- One complete run of handleSubmit in an exception monad, to track
propagation: the awaited call may throw (transportResult); the catch clause
binds no error and rethrows nothing, so the try/catch yields an ok message
list for either outcome; the finally block then clears isLoading, and an
error still pending after it would propagate as the error branch. -/
def handleSubmitExc (um bm : FreshMeta) (outcome : TransportOutcome)
    (s : ChatWindowState) : Except Unit ChatWindowState :=
  if jsTrim s.input = "" then .ok s
  else
    let s1 : ChatWindowState :=
      { messages := s.messages ++ [mkMessage um .user s.input],
        input := "", isLoading := true }
    let tryResult : Except Unit (List ChatMessage) :=
      match transportResult outcome with
      | .ok reply => .ok (s1.messages ++ [mkMessage bm .bot reply])
      | .error _ => .ok (s1.messages ++ [mkMessage bm .bot chatWindowFallbackText])
    match tryResult with
    | .ok msgs => .ok { s1 with messages := msgs, isLoading := false }
    | .error e => .error e

/-! ### useChat hook (src/client/src/hooks/useChat.ts) -/

/-- The state observable through the useChat hook: its messages list (a
useState hook starting empty) and the mutation's isPending flag, surfaced as
isLoading. -/
structure UseChatState where
  messages : List ChatMessage
  isPending : Bool
deriving DecidableEq, Repr

/-- The initial useChat state: no messages, mutation not pending. -/
def useChatInitialState : UseChatState := { messages := [], isPending := false }

/-- The fixed fallback text appended by the useChat mutation's onError. -/
def useChatErrorText : String := "Error contacting server."

/-- The mutation's onSuccess callback: append one bot message whose text is
the reply field of the data, and the mutation is no longer pending. -/
def useChatOnSuccess (m : FreshMeta) (data : ChatResponse) (s : UseChatState) :
    UseChatState :=
  { messages := s.messages ++ [mkMessage m .bot data.reply], isPending := false }

/-- The mutation's onError callback: append one bot message with the fixed
error text, and the mutation is no longer pending. -/
def useChatOnError (m : FreshMeta) (s : UseChatState) : UseChatState :=
  { messages := s.messages ++ [mkMessage m .bot useChatErrorText], isPending := false }

/-- The send function of useChat: unconditionally append a user message with
the given text (no trimming, no emptiness guard in the source) and call
mutation.mutate with an object whose field message holds the text.  The
second component is the issued request. -/
def send (m : FreshMeta) (text : String) (s : UseChatState) :
    UseChatState × Option WireRequest :=
  ({ messages := s.messages ++ [mkMessage m .user text], isPending := true },
   some (issuedRequest .useChat text))

/-- The settling of the mutation issued by send: onSuccess with the resolved
data, or onError. -/
def settleMutation (m : FreshMeta) (outcome : TransportOutcome)
    (s : UseChatState) : UseChatState :=
  match outcome with
  | .success reply => useChatOnSuccess m { reply := reply } s
  | .failure => useChatOnError m s

/-! ### The ChatWindow UI as an event system -/

/-- The disabled attribute of the text input: disabled while isLoading. -/
def inputDisabled (s : ChatWindowState) : Bool := s.isLoading

/-- The disabled attribute of the submit button: disabled while isLoading. -/
def submitDisabled (s : ChatWindowState) : Bool := s.isLoading

/-- The ChatWindow state together with whether a transport call is in
flight (issued and not yet settled). -/
structure UIState where
  ui : ChatWindowState
  pending : Bool
deriving DecidableEq, Repr

/-- The UI events of ChatWindow: editing the input (onChange), submitting the
form, and the settling of an in-flight transport call. -/
inductive ChatEvent where
  | edit (t : String)
  | submit (um : FreshMeta)
  | settle (bm : FreshMeta) (outcome : TransportOutcome)
deriving DecidableEq, Repr

/-- One UI transition of ChatWindow.  Editing requires the input control to
be enabled and replaces the draft.  A form submission requires the submit
control to be enabled; with an empty trimmed draft handleSubmit returns at
its guard, otherwise its synchronous phase runs and a call becomes pending.
A settle event requires an in-flight call and runs the resumption. -/
inductive Step : UIState → ChatEvent → UIState → Prop where
  | edit (t : String) (s : UIState) (h : inputDisabled s.ui = false) :
      Step s (.edit t) ⟨{ s.ui with input := t }, s.pending⟩
  | submitEmpty (um : FreshMeta) (s : UIState) (h : submitDisabled s.ui = false)
      (he : jsTrim s.ui.input = "") :
      Step s (.submit um) s
  | submitFull (um : FreshMeta) (s : UIState) (h : submitDisabled s.ui = false)
      (he : jsTrim s.ui.input ≠ "") :
      Step s (.submit um) ⟨(handleSubmitSync um s.ui).1, true⟩
  | settle (bm : FreshMeta) (outcome : TransportOutcome) (s : UIState)
      (hp : s.pending = true) :
      Step s (.settle bm outcome) ⟨handleSubmitResolve bm outcome s.ui, false⟩

/-- The mount state of ChatWindow: the initial component state, no call in
flight. -/
def initUIState (m : FreshMeta) : UIState := ⟨initialChatWindowState m, false⟩

/-- The states the ChatWindow UI can reach from some mount state by UI
transitions. -/
inductive Reachable : UIState → Prop where
  | init (m : FreshMeta) : Reachable (initUIState m)
  | step {s s2 : UIState} {e : ChatEvent} :
      Reachable s → Step s e s2 → Reachable s2

/-- The text of the bot message the useChat mutation appends once it
settles: the reply field on success, the fixed error text on failure. -/
def useChatBotText : TransportOutcome → String
  | .success reply => reply
  | .failure => useChatErrorText

/-! ### Concrete fixtures for instantiating the theorems -/

/-- A concrete fresh-metadata value. -/
def metaA : FreshMeta := { id := "id-a", timestamp := "2026-01-01T00:00:00Z" }

/-- A second concrete fresh-metadata value. -/
def metaB : FreshMeta := { id := "id-b", timestamp := "2026-01-01T00:00:01Z" }

/-- A concrete ChatWindow state with a non-blank draft. -/
def sampleState : ChatWindowState :=
  { messages := [], input := "Hello", isLoading := false }

/-- The UI state after editing the draft of a freshly mounted ChatWindow to
Hello. -/
def uiAfterEdit : UIState :=
  ⟨{ (initUIState metaA).ui with input := "Hello" }, (initUIState metaA).pending⟩

/-- The UI state after then submitting the form: the synchronous phase of
handleSubmit has run and the transport call is in flight. -/
def uiPending : UIState := ⟨(handleSubmitSync metaB uiAfterEdit.ui).1, true⟩

/-- In every reachable UI state the isLoading flag holds exactly when a
transport call is in flight. -/
theorem loading_eq_pending {s : UIState} (h : Reachable s) :
    s.ui.isLoading = s.pending := by
  induction h with
  | init m => rfl
  | step hr hs ih =>
    cases hs with
    | edit t s h => exact ih
    | submitEmpty um s h he => exact ih
    | submitFull um s h he => simp [handleSubmitSync, he]
    | settle bm outcome s hp => simp [handleSubmitResolve]

/-! ### Claim C10 -/

/-- Claim C10: before any interaction, ChatWindow's message list is not
empty — it holds exactly one bot-sender greeting message with the text Hi
there! How can I help you? — while the useChat hook's message list starts
empty. -/
theorem C10_initial_histories (m : FreshMeta) :
    (initialChatWindowState m).messages = [mkMessage m .bot chatWindowGreeting]
    ∧ (initialChatWindowState m).messages.length = 1
    ∧ (mkMessage m .bot chatWindowGreeting).sender = .bot
    ∧ (mkMessage m .bot chatWindowGreeting).text = "Hi there! How can I help you?"
    ∧ useChatInitialState.messages = [] := by
  refine ⟨rfl, rfl, rfl, rfl, rfl⟩

/-- Claim C10, instantiated at a concrete fresh-metadata value. -/
theorem C10_initial_histories_witness :
    (initialChatWindowState metaA).messages = [mkMessage metaA .bot chatWindowGreeting]
    ∧ (initialChatWindowState metaA).messages.length = 1
    ∧ (mkMessage metaA .bot chatWindowGreeting).sender = .bot
    ∧ (mkMessage metaA .bot chatWindowGreeting).text = "Hi there! How can I help you?"
    ∧ useChatInitialState.messages = [] :=
  C10_initial_histories metaA

/-! ### Claim C2 -/

/-- Claim C2 as stated — at every call site of the transport function the
request is written with the field question and the response is consumed from
the field response, differing from the declared fields message and reply —
is false: the useChat call site writes the declared message field and reads
the declared reply field. -/
theorem C2_counterexample_useChat_site :
    ¬ (∀ c : CallSite,
        (∀ t : String,
          issuedRequest c t = { message := none, question := some t })
        ∧ (∀ r : WireResponse, readResponseField c r = r.response)) := by
  intro h
  have h1 := (h .useChat).1 "hi"
  simp [issuedRequest] at h1

/-- Claim C2 amended: the field-name mismatch with the declared ChatRequest
and ChatResponse types holds at the ChatWindow call site, which writes the
field question and consumes the field response; the useChat call site,
however, writes the declared field message and reads the declared field
reply.  The two consumed response fields are genuinely distinct fields. -/
theorem C2_field_names_per_call_site :
    (∀ t : String,
      issuedRequest .chatWindow t = { message := none, question := some t })
    ∧ (∀ r : WireResponse, readResponseField .chatWindow r = r.response)
    ∧ (∀ t : String,
      issuedRequest .useChat t = { message := some t, question := none })
    ∧ (∀ r : WireResponse, readResponseField .useChat r = r.reply)
    ∧ (∃ r : WireResponse, r.response ≠ r.reply) := by
  refine ⟨fun t => rfl, fun r => rfl, fun t => rfl, fun r => rfl,
    ⟨{ reply := some "a", response := none }, by simp⟩⟩

/-- Claim C2 amended, instantiated at a concrete request and response. -/
theorem C2_field_names_witness :
    issuedRequest .chatWindow "hi" = { message := none, question := some "hi" }
    ∧ readResponseField .useChat { reply := some "a" } = some "a" :=
  ⟨C2_field_names_per_call_site.1 "hi",
   C2_field_names_per_call_site.2.2.2.1 { reply := some "a" }⟩

/-! ### Claim C4 -/

/-- Claim C4 as stated claims every entry point ignores whitespace-only
input; it is false at the useChat entry point: send with a whitespace-only
text changes the message list and issues an outbound call. -/
theorem C4_counterexample_send_whitespace :
    (send metaA "   " useChatInitialState).1.messages ≠ useChatInitialState.messages
    ∧ (send metaA "   " useChatInitialState).2 ≠ none := by
  constructor <;> simp [send, useChatInitialState, issuedRequest, mkMessage]

/-- Claim C4 amended: submitting an empty or whitespace-only input through
the ChatWindow handler leaves the state unchanged and issues no outbound
call; the useChat send function, however, has no such guard — it appends a
user message and issues a call for every text, whitespace-only included. -/
theorem C4_blank_input_guard (um : FreshMeta) (s : ChatWindowState)
    (h : jsTrim s.input = "") :
    handleSubmitSync um s = (s, none)
    ∧ (∀ (bm : FreshMeta) (outcome : TransportOutcome),
        handleSubmit um bm outcome s = s)
    ∧ ∀ (m : FreshMeta) (text : String) (u : UseChatState),
        (send m text u).1.messages = u.messages ++ [mkMessage m .user text]
        ∧ (send m text u).2 = some (issuedRequest .useChat text) := by
  refine ⟨by simp [handleSubmitSync, h], ?_, fun m text u => ⟨rfl, rfl⟩⟩
  intro bm outcome
  simp [handleSubmit, handleSubmitSync, h]

/-- Claim C4 amended, instantiated at a whitespace-only draft. -/
theorem C4_blank_input_guard_witness :
    handleSubmitSync metaA { messages := [], input := "   ", isLoading := false }
      = ({ messages := [], input := "   ", isLoading := false }, none) :=
  (C4_blank_input_guard metaA _ (by decide)).1

/-! ### Claim C5 -/

/-- Claim C5: on submit with non-empty trimmed input, the synchronous phase
of handleSubmit — before the transport call settles — appends exactly one
user-sender message carrying the submitted text, clears the input draft,
sets the isLoading flag, and issues exactly one outbound call. -/
theorem C5_submit_appends_user_synchronously (um : FreshMeta)
    (s : ChatWindowState) (h : jsTrim s.input ≠ "") :
    (handleSubmitSync um s).1.messages = s.messages ++ [mkMessage um .user s.input]
    ∧ (mkMessage um .user s.input).sender = .user
    ∧ (mkMessage um .user s.input).text = s.input
    ∧ (handleSubmitSync um s).1.input = ""
    ∧ (handleSubmitSync um s).1.isLoading = true
    ∧ (handleSubmitSync um s).2 = some (issuedRequest .chatWindow s.input) := by
  refine ⟨?_, rfl, rfl, ?_, ?_, ?_⟩ <;> simp [handleSubmitSync, h]

/-- Claim C5, instantiated at a concrete state with draft Hello. -/
theorem C5_submit_witness :
    (handleSubmitSync metaA sampleState).1.messages
      = sampleState.messages ++ [mkMessage metaA .user "Hello"]
    ∧ (mkMessage metaA .user "Hello").sender = .user
    ∧ (mkMessage metaA .user "Hello").text = "Hello"
    ∧ (handleSubmitSync metaA sampleState).1.input = ""
    ∧ (handleSubmitSync metaA sampleState).1.isLoading = true
    ∧ (handleSubmitSync metaA sampleState).2
        = some (issuedRequest .chatWindow "Hello") :=
  C5_submit_appends_user_synchronously metaA sampleState (by decide)

/-! ### Claim C3 -/

/-- Claim C3: when the transport call resolves successfully, exactly one
bot-sender message whose text equals the server-provided reply text is
appended, and the loading flag ends up false — in the ChatWindow handler and
in the useChat onSuccess callback alike. -/
theorem C3_success_appends_reply (um bm : FreshMeta) (reply : String)
    (s : ChatWindowState) (h : jsTrim s.input ≠ "") :
    (handleSubmit um bm (.success reply) s).messages
      = (handleSubmitSync um s).1.messages ++ [mkMessage bm .bot reply]
    ∧ (mkMessage bm .bot reply).sender = .bot
    ∧ (mkMessage bm .bot reply).text = reply
    ∧ (handleSubmit um bm (.success reply) s).isLoading = false
    ∧ ∀ (m : FreshMeta) (data : ChatResponse) (u : UseChatState),
        (useChatOnSuccess m data u).messages
          = u.messages ++ [mkMessage m .bot data.reply]
        ∧ (useChatOnSuccess m data u).isPending = false := by
  refine ⟨?_, rfl, rfl, ?_, fun m data u => ⟨rfl, rfl⟩⟩ <;>
    simp [handleSubmit, handleSubmitSync, h, handleSubmitResolve, chatWindowBotText]

/-- Claim C3, instantiated at a concrete state and reply. -/
theorem C3_success_witness :
    (handleSubmit metaA metaB (.success "Hi!") sampleState).messages
      = (handleSubmitSync metaA sampleState).1.messages
          ++ [mkMessage metaB .bot "Hi!"]
    ∧ (handleSubmit metaA metaB (.success "Hi!") sampleState).isLoading = false :=
  ⟨(C3_success_appends_reply metaA metaB "Hi!" sampleState (by decide)).1,
   (C3_success_appends_reply metaA metaB "Hi!" sampleState (by decide)).2.2.2.1⟩

/-! ### Claim C1 -/

/-- Claim C1: for every submitted message with non-empty trimmed input, a
complete run of the submission handler appends exactly one additional
bot-sender message after the user message — the reply text on success, the
fixed fallback on failure — so the message list grows by exactly two, with
exactly one bot message among the appended pair; likewise for a useChat send
followed by the settling of its mutation. -/
theorem C1_exactly_one_bot_follow_up (um bm : FreshMeta)
    (outcome : TransportOutcome) (s : ChatWindowState)
    (h : jsTrim s.input ≠ "") :
    (handleSubmit um bm outcome s).messages
      = s.messages ++ [mkMessage um .user s.input,
                       mkMessage bm .bot (chatWindowBotText outcome)]
    ∧ (mkMessage bm .bot (chatWindowBotText outcome)).sender = .bot
    ∧ (handleSubmit um bm outcome s).messages.length = s.messages.length + 2
    ∧ ((handleSubmit um bm outcome s).messages.drop s.messages.length).countP
        (fun msg => msg.sender == Sender.bot) = 1
    ∧ ∀ (m1 m2 : FreshMeta) (text : String) (u : UseChatState),
        (settleMutation m2 outcome (send m1 text u).1).messages
          = u.messages ++ [mkMessage m1 .user text,
                           mkMessage m2 .bot (useChatBotText outcome)] := by
  have hmsgs : (handleSubmit um bm outcome s).messages
      = s.messages ++ [mkMessage um .user s.input,
                       mkMessage bm .bot (chatWindowBotText outcome)] := by
    simp [handleSubmit, handleSubmitSync, h, handleSubmitResolve]
  refine ⟨hmsgs, rfl, ?_, ?_, ?_⟩
  · rw [hmsgs]; simp
  · rw [hmsgs, List.drop_left]
    simp [mkMessage, List.countP_cons]
  · intro m1 m2 text u
    cases outcome <;>
      simp [settleMutation, send, useChatOnSuccess, useChatOnError, useChatBotText]

/-- Claim C1, instantiated at a concrete state and a failing call. -/
theorem C1_exactly_one_bot_witness :
    (handleSubmit metaA metaB .failure sampleState).messages
      = sampleState.messages
          ++ [mkMessage metaA .user "Hello",
              mkMessage metaB .bot (chatWindowBotText .failure)]
    ∧ (handleSubmit metaA metaB .failure sampleState).messages.length
        = sampleState.messages.length + 2 :=
  ⟨(C1_exactly_one_bot_follow_up metaA metaB .failure sampleState (by decide)).1,
   (C1_exactly_one_bot_follow_up metaA metaB .failure sampleState (by decide)).2.2.1⟩

/-! ### Claim C6 -/

/-- Claim C6: when the transport call rejects, exactly one bot-sender
message with the fixed fallback text is appended — Something went wrong.
Please try again. in the ChatWindow path, Error contacting server. in the
useChat path — the loading flag ends up false, and no error propagates past
the handler (every outcome yields an ok state). -/
theorem C6_failure_appends_fallback (um bm : FreshMeta) (s : ChatWindowState)
    (h : jsTrim s.input ≠ "") :
    handleSubmitExc um bm .failure s
      = .ok { messages := s.messages ++ [mkMessage um .user s.input,
                mkMessage bm .bot chatWindowFallbackText],
              input := "", isLoading := false }
    ∧ (∀ outcome : TransportOutcome,
        ∃ s2 : ChatWindowState, handleSubmitExc um bm outcome s = .ok s2)
    ∧ handleSubmit um bm .failure s
        = { messages := s.messages ++ [mkMessage um .user s.input,
              mkMessage bm .bot chatWindowFallbackText],
            input := "", isLoading := false }
    ∧ ∀ (m : FreshMeta) (u : UseChatState),
        (useChatOnError m u).messages
          = u.messages ++ [mkMessage m .bot useChatErrorText]
        ∧ (useChatOnError m u).isPending = false := by
  refine ⟨?_, ?_, ?_, fun m u => ⟨rfl, rfl⟩⟩
  · simp [handleSubmitExc, h, transportResult]
  · intro outcome
    cases outcome with
    | success reply =>
        exact ⟨{ messages := s.messages ++ [mkMessage um .user s.input,
                   mkMessage bm .bot reply], input := "", isLoading := false },
               by simp [handleSubmitExc, h, transportResult]⟩
    | failure =>
        exact ⟨{ messages := s.messages ++ [mkMessage um .user s.input,
                   mkMessage bm .bot chatWindowFallbackText],
                 input := "", isLoading := false },
               by simp [handleSubmitExc, h, transportResult]⟩
  · simp [handleSubmit, handleSubmitSync, h, handleSubmitResolve,
      chatWindowBotText]

/-- Claim C6, instantiated at a concrete state. -/
theorem C6_failure_witness :
    handleSubmitExc metaA metaB .failure sampleState
      = .ok { messages := sampleState.messages
                ++ [mkMessage metaA .user "Hello",
                    mkMessage metaB .bot chatWindowFallbackText],
              input := "", isLoading := false } :=
  (C6_failure_appends_fallback metaA metaB sampleState (by decide)).1

/-- The edited mount state is reachable: mount, then type Hello. -/
theorem reachable_uiAfterEdit : Reachable uiAfterEdit :=
  Reachable.step (Reachable.init metaA)
    (Step.edit "Hello" (initUIState metaA) rfl)

/-- The pending state is reachable: mount, type Hello, submit the form. -/
theorem reachable_uiPending : Reachable uiPending :=
  Reachable.step reachable_uiAfterEdit
    (Step.submitFull metaB uiAfterEdit rfl (by decide))

/-! ### Claim C7 -/

/-- Claim C7: the loading flag follows the two-state machine Idle to Sending
to Idle — false at mount, true in a reachable state exactly while the one
transport call is in flight, set by the synchronous phase of a non-empty
submission, cleared by the resumption on either outcome, and untouched by an
empty submission. -/
theorem C7_loading_state_machine :
    (∀ m : FreshMeta, (initUIState m).ui.isLoading = false)
    ∧ (∀ s : UIState, Reachable s → (s.ui.isLoading = true ↔ s.pending = true))
    ∧ (∀ (um : FreshMeta) (s : ChatWindowState), jsTrim s.input ≠ "" →
        (handleSubmitSync um s).1.isLoading = true)
    ∧ (∀ (bm : FreshMeta) (outcome : TransportOutcome) (s : ChatWindowState),
        (handleSubmitResolve bm outcome s).isLoading = false)
    ∧ (∀ (um : FreshMeta) (s : ChatWindowState), jsTrim s.input = "" →
        handleSubmitSync um s = (s, none)) := by
  refine ⟨fun m => rfl, ?_, ?_, fun bm outcome s => rfl, ?_⟩
  · intro s hs
    rw [loading_eq_pending hs]
  · intro um s h
    simp [handleSubmitSync, h]
  · intro um s h
    simp [handleSubmitSync, h]

/-- Claim C7, instantiated at the mount state and at a concrete pending
state. -/
theorem C7_loading_witness :
    ((initUIState metaA).ui.isLoading = true ↔ (initUIState metaA).pending = true)
    ∧ (uiPending.ui.isLoading = true ↔ uiPending.pending = true)
    ∧ (handleSubmitSync metaA sampleState).1.isLoading = true :=
  ⟨C7_loading_state_machine.2.1 (initUIState metaA) (Reachable.init metaA),
   C7_loading_state_machine.2.1 uiPending reachable_uiPending,
   C7_loading_state_machine.2.2.1 metaA sampleState (by decide)⟩

/-! ### Claim C8 -/

/-- Claim C8: while isLoading holds, both the text input and the submit
button carry a true disabled attribute, and in any reachable UI state with a
call in flight the only possible UI transition is the settling of that call —
in particular no second submission can be issued. -/
theorem C8_no_submission_while_pending :
    (∀ s : ChatWindowState, s.isLoading = true →
        submitDisabled s = true ∧ inputDisabled s = true)
    ∧ (∀ (u u2 : UIState) (e : ChatEvent), Reachable u → u.pending = true →
        Step u e u2 →
        ∃ (bm : FreshMeta) (outcome : TransportOutcome),
          e = ChatEvent.settle bm outcome) := by
  constructor
  · intro s h
    exact ⟨h, h⟩
  · intro u u2 e hr hp hs
    have hl : u.ui.isLoading = true := (loading_eq_pending hr).trans hp
    cases hs with
    | edit t s h => rw [inputDisabled, hl] at h; cases h
    | submitEmpty um s h he => rw [submitDisabled, hl] at h; cases h
    | submitFull um s h he => rw [submitDisabled, hl] at h; cases h
    | settle bm outcome s hp2 => exact ⟨bm, outcome, rfl⟩

/-- Claim C8, instantiated at a concrete reachable pending state and its
settle transition. -/
theorem C8_no_submission_witness :
    ∃ (bm : FreshMeta) (outcome : TransportOutcome),
      ChatEvent.settle metaB TransportOutcome.failure
        = ChatEvent.settle bm outcome :=
  C8_no_submission_while_pending.2 uiPending
    ⟨handleSubmitResolve metaB .failure uiPending.ui, false⟩
    (ChatEvent.settle metaB .failure)
    reachable_uiPending rfl
    (Step.settle metaB .failure uiPending rfl)

/-! ### Claim C9 -/

/-- Claim C9: every update to a message list in either component is a pure
append — the previous list is an exact prefix of the new one (so every
previously created ChatMessage record is unchanged, never reordered or
removed): each UI transition of ChatWindow, and the send, onSuccess and
onError updates of useChat. -/
theorem C9_append_only :
    (∀ (u u2 : UIState) (e : ChatEvent), Step u e u2 →
        ∃ tail, u2.ui.messages = u.ui.messages ++ tail)
    ∧ (∀ (m : FreshMeta) (text : String) (w : UseChatState),
        ∃ tail, (send m text w).1.messages = w.messages ++ tail)
    ∧ (∀ (m : FreshMeta) (data : ChatResponse) (w : UseChatState),
        ∃ tail, (useChatOnSuccess m data w).messages = w.messages ++ tail)
    ∧ (∀ (m : FreshMeta) (w : UseChatState),
        ∃ tail, (useChatOnError m w).messages = w.messages ++ tail) := by
  refine ⟨?_, fun m text w => ⟨_, rfl⟩, fun m data w => ⟨_, rfl⟩,
    fun m w => ⟨_, rfl⟩⟩
  intro u u2 e hs
  cases hs with
  | edit t s h => exact ⟨[], by simp⟩
  | submitEmpty um s h he => exact ⟨[], by simp⟩
  | submitFull um s h he =>
      exact ⟨[mkMessage um .user u.ui.input], by simp [handleSubmitSync, he]⟩
  | settle bm outcome s hp =>
      exact ⟨[mkMessage bm .bot (chatWindowBotText outcome)],
        by simp [handleSubmitResolve]⟩

/-- Claim C9, instantiated at the concrete submission transition. -/
theorem C9_append_only_witness :
    ∃ tail, uiPending.ui.messages = uiAfterEdit.ui.messages ++ tail :=
  C9_append_only.1 uiAfterEdit uiPending (ChatEvent.submit metaB)
    (Step.submitFull metaB uiAfterEdit rfl (by decide))

end PlasticGPT
